import Mathlib

/-!
Verification of the E-Mart backend (`src/server.js`): a shallow embedding of
the product query engine, the session-token lifecycle and the auth routes,
with theorems settling the specified claims.

Conventions of the embedding:
* Query-string and body parameters arrive as `Option` values (`none` = absent).
* JavaScript truthiness on strings (`if (x)`) is `x` present and non-empty.
* MongoDB `$regex` predicates built by the handler use the raw user search
  string with option `i`; for plain (metacharacter-free) patterns this is
  case-insensitive substring containment, which is how the store semantics
  below interprets them.
* Numbers that the code only compares and counts (`price`, `rating`,
  timestamps) are embedded as `Int` / `Nat`.
-/

namespace EMart

/-- An embedded review (subdocument of a product). -/
structure Review where
  user : String
  comment : String
  rating : Int
  date : Nat
deriving Repr, DecidableEq

/-- A catalog product, as in the `productSchema` of `server.js` (the store's
`_id` is carried as `id`, `createdAt` is the store-native creation time used
as the default sort key). -/
structure Product where
  id : String
  name : String
  title : String
  brand : String
  category : String
  price : Int
  rating : Int
  description : String
  stock : Int
  image : String
  reviews : List Review
  createdAt : Int
deriving Repr, DecidableEq

/-- A user record, as in the `userSchema` of `server.js`. -/
structure User where
  id : String
  name : String
  email : String
  password : String
  createdAt : Int
deriving Repr, DecidableEq

/-- One `{ field: { $regex: pattern, $options: 'i' } }` predicate. -/
structure RegexPred where
  field : String
  pattern : String
  caseInsensitive : Bool
deriving Repr, DecidableEq

/-- The `query.price` sub-document: `$gte` / `$lte` bounds. -/
structure PriceRange where
  gte : Option Int
  lte : Option Int
deriving Repr, DecidableEq

/-- The filter document built by the `GET /api/products` handler:
an optional `$or` group of regex predicates plus optional exact-match and
range predicates, all AND-combined. -/
structure Query where
  orGroup : Option (List RegexPred)
  category : Option String
  brand : Option String
  price : Option PriceRange
deriving Repr, DecidableEq

/-- The single-key sort directive `{ [sortBy]: order === 'asc' ? 1 : -1 }`. -/
structure SortSpec where
  key : String
  dir : Int
deriving Repr, DecidableEq

/-- Raw query parameters of `GET /api/products`, before defaulting
(`none` = parameter absent from the query string). -/
structure ListParams where
  page : Option Nat
  limit : Option Nat
  search : Option String
  sortBy : Option String
  order : Option String
  category : Option String
  brand : Option String
  minPrice : Option Int
  maxPrice : Option Int
deriving Repr, DecidableEq

/-- JavaScript truthiness for an optional string parameter: absent or
empty is falsy. -/
def truthyS : Option String → Bool
  | none => false
  | some s => s ≠ ""

/-- Builds the Mongo filter document exactly as lines 222–240 of
`server.js`: a `$or` regex group over name/title/brand/category when
`search` is truthy, exact `category` / `brand` matches when those are
truthy, and a `price` range sub-document when a bound is present. -/
def buildQuery (search : String) (category brand : Option String)
    (minPrice maxPrice : Option Int) : Query :=
  { orGroup :=
      if search ≠ "" then
        some [⟨"name", search, true⟩, ⟨"title", search, true⟩,
              ⟨"brand", search, true⟩, ⟨"category", search, true⟩]
      else none
    category := if truthyS category then category else none
    brand := if truthyS brand then brand else none
    price :=
      if minPrice.isSome || maxPrice.isSome then
        some ⟨minPrice, maxPrice⟩
      else none }

/-- Case folding used for the `i` regex option, on the underlying
character list. -/
def foldCase (s : String) : List Char := s.toList.map Char.toLower

/-- `containsSub p s`: `p` occurs as a contiguous substring of `s`
(on the underlying character lists). -/
def containsSubList : List Char → List Char → Bool
  | p, [] => p.isEmpty
  | p, c :: rest => p.isPrefixOf (c :: rest) || containsSubList p rest

/-- Case-insensitive substring containment: the semantics of a
`$regex: pattern, $options: 'i'` predicate for a literal pattern. -/
def containsCI (pattern s : String) : Bool :=
  containsSubList (foldCase pattern) (foldCase s)

/-- The string field of a product a regex predicate can address. -/
def fieldValue (field : String) (p : Product) : String :=
  if field = "name" then p.name
  else if field = "title" then p.title
  else if field = "brand" then p.brand
  else if field = "category" then p.category
  else ""

/-- Whether a product satisfies one regex predicate. -/
def regexHolds (rp : RegexPred) (p : Product) : Bool :=
  if rp.caseInsensitive then containsCI rp.pattern (fieldValue rp.field p)
  else containsSubList rp.pattern.toList (fieldValue rp.field p).toList

/-- Store semantics of the filter document: AND of the present predicates,
the `$or` group holding when any of its members does. -/
def productMatches (q : Query) (p : Product) : Bool :=
  (match q.orGroup with
   | none => true
   | some preds => preds.any (fun rp => regexHolds rp p)) &&
  (match q.category with
   | none => true
   | some c => p.category = c) &&
  (match q.brand with
   | none => true
   | some b => p.brand = b) &&
  (match q.price with
   | none => true
   | some pr =>
     (match pr.gte with
      | none => true
      | some lo => lo ≤ p.price) &&
     (match pr.lte with
      | none => true
      | some hi => p.price ≤ hi))

/-- Numeric sort value of a product under a sort key (store comparison
order on the fields the API sorts by; unknown keys compare equal). -/
def sortValue (key : String) (p : Product) : Int :=
  if key = "price" then p.price
  else if key = "rating" then p.rating
  else if key = "stock" then p.stock
  else if key = "createdAt" then p.createdAt
  else 0

/-- The store's comparison under a single-key sort directive:
ascending on the key when `dir ≥ 0`, descending otherwise. -/
def sortLE (s : SortSpec) (a b : Product) : Bool :=
  if s.dir ≥ 0 then sortValue s.key a ≤ sortValue s.key b
  else sortValue s.key b ≤ sortValue s.key a

/-- Builds the sort directive exactly as lines 243–244 of `server.js`:
`sortOptions[sortBy] = order === 'asc' ? 1 : -1`. -/
def buildSort (sortBy order : String) : SortSpec :=
  ⟨sortBy, if order = "asc" then 1 else -1⟩

/-- Pagination metadata returned by `GET /api/products`. -/
structure Pagination where
  page : Nat
  limit : Nat
  total : Nat
  pages : Nat
deriving Repr, DecidableEq

/-- The JSON payload of `GET /api/products`. -/
structure ListResponse where
  products : List Product
  pagination : Pagination
deriving Repr, DecidableEq

/-- The filter document the handler builds for given parameters, after
the destructuring defaults of lines 210–220 (`search = ''`). -/
def effectiveQuery (params : ListParams) : Query :=
  buildQuery (params.search.getD "") params.category params.brand
    params.minPrice params.maxPrice

/-- The sort directive the handler builds for given parameters, after the
destructuring defaults (`sortBy = 'createdAt'`, `order = 'desc'`). -/
def effectiveSort (params : ListParams) : SortSpec :=
  buildSort (params.sortBy.getD "createdAt") (params.order.getD "desc")

/-- Inserts an element into a list ahead of the first element it compares
at-most-equal to (the insertion step of a stable sort). -/
def insertSorted {α : Type} (le : α → α → Bool) (a : α) : List α → List α
  | [] => [a]
  | b :: bs => if le a b then a :: b :: bs else b :: insertSorted le a bs

/-- Stable insertion sort, the embedding's model of the store's sorted
retrieval order. -/
def sortList {α : Type} (le : α → α → Bool) : List α → List α
  | [] => []
  | a :: as => insertSorted le a (sortList le as)

/-- The filtered, sorted sequence `Product.find(query).sort(sortOptions)`
denotes over a concrete store. -/
def sortedFiltered (store : List Product) (params : ListParams) : List Product :=
  sortList (sortLE (effectiveSort params))
    (store.filter (productMatches (effectiveQuery params)))

/-- The `GET /api/products` handler over a concrete store: defaults
`page = 1`, `limit = 8`, builds filter and sort, returns the
`skip((page-1)*limit).limit(limit)` slice of the filtered sorted sequence,
and pagination metadata with `total = countDocuments(query)` and
`pages = ceil(total / limit)`. `.limit(n)` is modelled as retrieving at
most `n` items (the store's special reading of `n = 0` as "no limit" is
outside the model, so the theorems below assume a positive limit). -/
def listProducts (store : List Product) (params : ListParams) : ListResponse :=
  let page := params.page.getD 1
  let limit := params.limit.getD 8
  let sorted := sortedFiltered store params
  let skip := (page - 1) * limit
  let total := (store.filter (productMatches (effectiveQuery params))).length
  { products := (sorted.drop skip).take limit
    pagination :=
      { page := page
        limit := limit
        total := total
        pages := (total + limit - 1) / limit } }

/-- A JSON value, for embedding response bodies. -/
inductive Json where
  | null
  | str (s : String)
  | num (n : Int)
  | obj (fields : List (String × Json))
  | arr (elems : List Json)

/-- An HTTP response: status code and JSON body. -/
structure Response where
  status : Nat
  body : Json

/-- `{ message: s }` error/info body. -/
def msgBody (s : String) : Json := .obj [("message", .str s)]

/-- `{ message: s, error: e }` body of 500-class faults. -/
def errBody (s e : String) : Json := .obj [("message", .str s), ("error", .str e)]

/-! ### Session tokens

Modelled from the spec: token issuance/verification is performed by the
external `jsonwebtoken` library (`jwt.sign` / `jwt.verify`), which is not
part of this repository's sources. Per §4.2 of the spec, `issue(userId)`
produces a signed, tamper-evident token embedding `userId` and an expiry
fixed at issuance + 7 days, and `verify` fails when the signature check
fails, the payload is malformed, or the expiry has passed, never partially
trusting an unverified payload. The signature is modelled as an ideal
tamper-evident seal: it records the signing secret and the sealed payload,
and verification checks it by equality. -/

/-- The claims a token carries: the caller-supplied `userId` plus the
`iat`/`exp` timestamps `jwt.sign` adds (seconds). -/
structure TokenPayload where
  userId : String
  iat : Nat
  exp : Nat
deriving Repr, DecidableEq

/-- A serialized token: its decoded payload (`none` models a payload that
fails to parse) and its signature, modelled as an ideal seal over the
secret and the signed payload. -/
structure Token where
  payload : Option TokenPayload
  sig : String × Option TokenPayload
deriving Repr, DecidableEq

/-- `expiresIn: '7d'` in seconds. -/
def sevenDays : Nat := 7 * 24 * 60 * 60

/-- Modelled from the spec: `jwt.sign({ userId }, secret, { expiresIn: '7d' })`
at time `now` — payload `{userId, iat = now, exp = now + 7d}`, sealed with
the secret. -/
def signToken (secret : String) (userId : String) (now : Nat) : Token :=
  let p : TokenPayload := ⟨userId, now, now + sevenDays⟩
  ⟨some p, (secret, some p)⟩

/-- Modelled from the spec: `jwt.verify(token, secret)` at time `now` —
yields the embedded `userId` when the payload parses, the seal matches the
secret and the payload, and the expiry has not passed; otherwise fails. -/
def verifyToken (secret : String) (now : Nat) (t : Token) : Option String :=
  match t.payload with
  | none => none
  | some p =>
    if t.sig = (secret, some p) ∧ now < p.exp then some p.userId
    else none

/-! ### Auth middleware and routes -/

/-- `authMiddleware` (lines 91–105): reads `req.cookies?.token`; with no
token responds 401 immediately; with a token that fails verification
responds 401 `Invalid token`; otherwise attaches the decoded `userId`
(`Except.ok`) and lets processing proceed to the handler. -/
def authMiddleware (secret : String) (now : Nat) (cookieToken : Option Token) :
    Except Response String :=
  match cookieToken with
  | none => .error ⟨401, msgBody "No authentication token provided"⟩
  | some t =>
    match verifyToken secret now t with
    | some uid => .ok uid
    | none => .error ⟨401, msgBody "Invalid token"⟩

/-- The user JSON `.select('-password')` produces: the record without its
`password` field. -/
def userJson (u : User) : Json :=
  .obj [("_id", .str u.id), ("name", .str u.name), ("email", .str u.email),
        ("createdAt", .num u.createdAt)]

/-- Modelled from the spec: Mongoose casts any id handed to `findById` to
an ObjectId before querying; a syntactically invalid id (not 24 hex
characters) makes `findById` throw a `CastError`, which the enclosing
handler's `catch` turns into a store-layer fault — distinct from the `null`
result of a well-formed id that matches no document. -/
def validObjectId (s : String) : Bool :=
  s.length = 24 && s.toList.all (fun c => c.isDigit ||
    ('a' ≤ c && c ≤ 'f') || ('A' ≤ c && c ≤ 'F'))

/-- `User.findById` over a concrete store: a fault (`Except.error`) for a
syntactically invalid id, otherwise the matching record if any. -/
def findUserById (users : List User) (id : String) :
    Except String (Option User) :=
  if validObjectId id then .ok (users.find? (fun u => u.id = id))
  else .error "CastError"

/-- The `GET /api/auth/me` handler body (lines 190–197): looks up the
attached `userId` and returns whatever `findById` yields as JSON — `null`
when no user matches — while a `findById` fault (e.g. the `CastError` on a
malformed userId) lands in the `catch` and yields HTTP 500
`Server error`. -/
def meHandler (users : List User) (userId : String) : Response :=
  match findUserById users userId with
  | .ok (some u) => ⟨200, userJson u⟩
  | .ok none => ⟨200, Json.null⟩
  | .error _ => ⟨500, msgBody "Server error"⟩

/-- The complete `GET /api/auth/me` route: middleware first, handler only
on success. -/
def meRoute (secret : String) (now : Nat) (users : List User)
    (cookieToken : Option Token) : Response :=
  match authMiddleware secret now cookieToken with
  | .error r => r
  | .ok uid => meHandler users uid

/-! ### Registration and login -/

/-- The parsed body of `POST /api/auth/register` / `/login`
(`none` = field absent). -/
structure RegisterReq where
  name : Option String
  email : Option String
  password : Option String
deriving Repr, DecidableEq

/-- The user object embedded in successful register/login responses:
`{ id, name, email }`. -/
def userSummary (u : User) : Json :=
  .obj [("id", .str u.id), ("name", .str u.name), ("email", .str u.email)]

/-- The `POST /api/auth/register` handler (lines 110–150) over a concrete
user store. `hash` abstracts `bcrypt.hash(password, 10)` (external
library); `newId` is the store-generated `_id` and `now` the creation
time. Returns the response and the store after the request. -/
def register (hash : String → String) (newId : String) (now : Int)
    (users : List User) (r : RegisterReq) : Response × List User :=
  if ¬ (truthyS r.name && truthyS r.email && truthyS r.password) then
    (⟨400, msgBody "All fields are required"⟩, users)
  else
    let email := r.email.getD ""
    match users.find? (fun u => u.email = email) with
    | some _ => (⟨400, msgBody "User already exists"⟩, users)
    | none =>
      let u : User := ⟨newId, r.name.getD "", email, hash (r.password.getD ""), now⟩
      (⟨201, .obj [("message", .str "User registered successfully"),
                   ("user", userSummary u)]⟩,
       users ++ [u])

/-- The `POST /api/auth/login` handler (lines 153–187) over a concrete user
store. `verify` abstracts `bcrypt.compare(plaintext, storedHash)` (external
library). The store is not modified by login. -/
def login (verify : String → String → Bool) (users : List User)
    (email password : Option String) : Response :=
  if ¬ (truthyS email && truthyS password) then
    ⟨400, msgBody "All fields are required"⟩
  else
    match users.find? (fun u => u.email = email.getD "") with
    | none => ⟨400, msgBody "Invalid credentials"⟩
    | some u =>
      if verify (password.getD "") u.password then
        ⟨200, .obj [("message", .str "Login successful"), ("user", userSummary u)]⟩
      else
        ⟨400, msgBody "Invalid credentials"⟩

/-! ### Product point lookup -/

/-- `Product.findById` over a concrete store: a fault (`Except.error`) for a
syntactically invalid id, otherwise the matching document if any. -/
def findProductById (store : List Product) (id : String) :
    Except String (Option Product) :=
  if validObjectId id then .ok (store.find? (fun p => p.id = id))
  else .error "CastError"

/-- The JSON rendering of a product returned by `GET /api/products/:id`. -/
def productJson (p : Product) : Json :=
  .obj [("_id", .str p.id), ("name", .str p.name), ("title", .str p.title),
        ("brand", .str p.brand), ("category", .str p.category),
        ("price", .num p.price), ("rating", .num p.rating),
        ("description", .str p.description), ("stock", .num p.stock),
        ("image", .str p.image)]

/-- The `GET /api/products/:id` handler (lines 284–296): 200 with the
product when found, 404 `Product not found` when the lookup returns null,
500 with the fault message when the store layer throws. -/
def getProductById (store : List Product) (id : String) : Response :=
  match findProductById store id with
  | .ok (some p) => ⟨200, productJson p⟩
  | .ok none => ⟨404, msgBody "Product not found"⟩
  | .error e => ⟨500, errBody "Server error" e⟩

/-! ### Concrete sample data for evaluating the theorems -/

/-- A sample catalog product in the shape of the seeded data. -/
def sampleProduct : Product :=
  ⟨"p1", "Product 1", "Premium Fruits Item 1", "FreshFarm", "Fruits",
   20, 4, "desc", 5, "img", [], 100⟩

/-- `GET /api/products` with no query parameters at all. -/
def emptyParams : ListParams :=
  ⟨none, none, none, none, none, none, none, none, none⟩

/-- `GET /api/products?search=fruit`. -/
def searchParams : ListParams :=
  ⟨none, none, some "fruit", none, none, none, none, none, none⟩

end EMart

namespace EMart

/-- C8: in `GET /api/products`, `sortBy` defaults to `createdAt` and `order`
defaults to descending when absent, and the built sort directive is always a
single-key directive (the `SortSpec` structure) mapping the chosen key to
`+1` exactly when `order` is `asc` and to `-1` otherwise. -/
theorem sort_directive_spec (params : ListParams) :
    (effectiveSort params).key = params.sortBy.getD "createdAt" ∧
    (params.sortBy = none → (effectiveSort params).key = "createdAt") ∧
    (params.order = none → (effectiveSort params).dir = -1) ∧
    ((effectiveSort params).dir = 1 ∨ (effectiveSort params).dir = -1) ∧
    ((effectiveSort params).dir = 1 ↔ params.order.getD "desc" = "asc") := by
  refine ⟨rfl, ?_, ?_, ?_, ?_⟩
  · intro h
    simp [effectiveSort, buildSort, h]
  · intro h
    simp [effectiveSort, buildSort, h]
  · by_cases h : params.order.getD "desc" = "asc" <;>
      simp [effectiveSort, buildSort, h]
  · by_cases h : params.order.getD "desc" = "asc" <;>
      simp [effectiveSort, buildSort, h]

/-- Evaluation of `sort_directive_spec` at a parameterless request. -/
theorem sort_directive_spec_witness :
    (effectiveSort emptyParams).key = "createdAt" ∧
    (effectiveSort emptyParams).dir = -1 :=
  ⟨(sort_directive_spec emptyParams).2.1 rfl,
   (sort_directive_spec emptyParams).2.2.1 rfl⟩

/-- C4: issuing a session token for a `userId` and immediately verifying it
yields the same `userId`; the token's payload embeds an expiry of exactly
issuance time plus 7 days; and verification fails (yields no `userId`) on a
failed signature check, a malformed payload, or a passed expiry. -/
theorem token_lifecycle_spec (secret userId : String) (now : Nat) (t : Token) :
    verifyToken secret now (signToken secret userId now) = some userId ∧
    (signToken secret userId now).payload = some ⟨userId, now, now + sevenDays⟩ ∧
    (t.sig ≠ (secret, t.payload) → verifyToken secret now t = none) ∧
    (t.payload = none → verifyToken secret now t = none) ∧
    (∀ p, t.payload = some p → p.exp ≤ now → verifyToken secret now t = none) := by
  refine ⟨?_, rfl, ?_, ?_, ?_⟩
  · have h : now < now + sevenDays := Nat.lt_add_of_pos_right (by decide)
    simp [verifyToken, signToken, h]
  · intro hsig
    cases hp : t.payload with
    | none => simp [verifyToken, hp]
    | some p =>
      rw [verifyToken, hp]
      show (if t.sig = (secret, some p) ∧ now < p.exp then some p.userId else none) = none
      rw [if_neg]
      rintro ⟨h1, _⟩
      exact hsig (by rw [hp]; exact h1)
  · intro hp
    simp [verifyToken, hp]
  · intro p hp hexp
    rw [verifyToken, hp]
    show (if t.sig = (secret, some p) ∧ now < p.exp then some p.userId else none) = none
    rw [if_neg]
    rintro ⟨_, h2⟩
    exact absurd h2 (Nat.not_lt.2 hexp)

/-- Evaluation of `token_lifecycle_spec`: a fresh token round-trips, a token
sealed with the wrong secret fails, an expired token fails. -/
theorem token_lifecycle_spec_witness :
    verifyToken "k" 0 (signToken "k" "u1" 0) = some "u1" ∧
    verifyToken "k" 0 ⟨some ⟨"u1", 0, 1⟩, ("bad", some ⟨"u1", 0, 1⟩)⟩ = none ∧
    verifyToken "k" 9 ⟨some ⟨"u1", 0, 9⟩, ("k", some ⟨"u1", 0, 9⟩)⟩ = none :=
  ⟨(token_lifecycle_spec "k" "u1" 0 ⟨none, ("", none)⟩).1,
   (token_lifecycle_spec "k" "u1" 0
      ⟨some ⟨"u1", 0, 1⟩, ("bad", some ⟨"u1", 0, 1⟩)⟩).2.2.1 (by decide),
   (token_lifecycle_spec "k" "u1" 9
      ⟨some ⟨"u1", 0, 9⟩, ("k", some ⟨"u1", 0, 9⟩)⟩).2.2.2.2 ⟨"u1", 0, 9⟩ rfl (by decide)⟩

/-- C9: with both fields present, a login whose email matches no stored user
and a login whose email matches a user but whose password fails verification
produce the identical response — HTTP 400 with body message
`Invalid credentials` — so the two cases are indistinguishable to an
observer of status and body. -/
theorem login_indistinguishable_spec (verify : String → String → Bool)
    (users1 users2 : List User) (email password : Option String) (u : User)
    (he : truthyS email = true) (hp : truthyS password = true)
    (h1 : ∀ v ∈ users1, v.email ≠ email.getD "")
    (h2 : users2.find? (fun v => v.email = email.getD "") = some u)
    (h3 : verify (password.getD "") u.password = false) :
    login verify users1 email password = ⟨400, msgBody "Invalid credentials"⟩ ∧
    login verify users2 email password = login verify users1 email password := by
  have hfind1 : users1.find? (fun v => v.email = email.getD "") = none := by
    rw [List.find?_eq_none]
    intro v hv
    simpa using h1 v hv
  constructor
  · simp [login, he, hp, hfind1]
  · simp [login, he, hp, hfind1, h2, h3]

/-- Evaluation of `login_indistinguishable_spec` on a concrete pair of
stores: an empty store versus a store holding the email with a
non-matching password. -/
theorem login_indistinguishable_spec_witness :
    login (fun _ _ => false) [] (some "a@b.c") (some "pw") =
      ⟨400, msgBody "Invalid credentials"⟩ ∧
    login (fun _ _ => false) [⟨"i", "n", "a@b.c", "h", 0⟩] (some "a@b.c") (some "pw") =
      login (fun _ _ => false) [] (some "a@b.c") (some "pw") :=
  login_indistinguishable_spec (fun _ _ => false) [] [⟨"i", "n", "a@b.c", "h", 0⟩]
    (some "a@b.c") (some "pw") ⟨"i", "n", "a@b.c", "h", 0⟩
    (by decide) (by decide) (by simp) (by simp) rfl

/-- C10 counterexample: a token minted with the in-source default secret
embedding the userId `"x"` verifies, and `"x"` matches no user of the empty
store, yet the request is answered with HTTP 500 `Server error` — not 200
with a `null` body — because `User.findById("x")` throws a `CastError` on
the malformed ObjectId and lands in the handler's `catch`. -/
theorem me_unknown_user_counterexample :
    verifyToken "your-secret-key-here" 0
      (signToken "your-secret-key-here" "x" 0) = some "x" ∧
    ([] : List User).find? (fun u => u.id = "x") = none ∧
    meRoute "your-secret-key-here" 0 []
      (some (signToken "your-secret-key-here" "x" 0)) =
      ⟨500, msgBody "Server error"⟩ ∧
    meRoute "your-secret-key-here" 0 []
      (some (signToken "your-secret-key-here" "x" 0)) ≠ ⟨200, Json.null⟩ := by
  have h500 : meRoute "your-secret-key-here" 0 []
      (some (signToken "your-secret-key-here" "x" 0)) =
      ⟨500, msgBody "Server error"⟩ := by
    have hv : verifyToken "your-secret-key-here" 0
        (signToken "your-secret-key-here" "x" 0) = some "x" := by decide
    simp [meRoute, authMiddleware, hv, meHandler, findUserById, validObjectId]
  refine ⟨by decide, rfl, h500, ?_⟩
  rw [h500]
  intro h
  exact absurd (congrArg Response.status h) (by decide)

/-- C10 (amended): a `GET /api/auth/me` request carrying a valid token
whose embedded `userId` matches no stored user is answered with HTTP 200
and a `null` body when that `userId` is a well-formed ObjectId; a malformed
embedded `userId` instead faults in `User.findById` and is answered with
HTTP 500 `Server error`. -/
theorem me_unknown_user_spec (secret : String) (now : Nat) (users : List User)
    (t : Token) (uid : String)
    (hv : verifyToken secret now t = some uid)
    (hu : ∀ u ∈ users, u.id ≠ uid) :
    (validObjectId uid = true →
      meRoute secret now users (some t) = ⟨200, Json.null⟩) ∧
    (validObjectId uid = false →
      meRoute secret now users (some t) = ⟨500, msgBody "Server error"⟩) := by
  have hfind : users.find? (fun u => u.id = uid) = none := by
    rw [List.find?_eq_none]
    intro u hmem
    simpa using hu u hmem
  constructor
  · intro hvalid
    simp [meRoute, authMiddleware, hv, meHandler, findUserById, hvalid, hfind]
  · intro hvalid
    simp [meRoute, authMiddleware, hv, meHandler, findUserById, hvalid]

/-- Evaluation of `me_unknown_user_spec`: freshly issued tokens for a
well-formed and for a malformed userId, both absent from the store. -/
theorem me_unknown_user_spec_witness :
    meRoute "k" 0 []
      (some (signToken "k" "0123456789abcdef01234567" 0)) = ⟨200, Json.null⟩ ∧
    meRoute "k" 0 []
      (some (signToken "k" "nosuchuser" 0)) = ⟨500, msgBody "Server error"⟩ :=
  ⟨(me_unknown_user_spec "k" 0 [] (signToken "k" "0123456789abcdef01234567" 0)
      "0123456789abcdef01234567" (by decide) (by simp)).1 (by decide),
   (me_unknown_user_spec "k" 0 [] (signToken "k" "nosuchuser" 0)
      "nosuchuser" (by decide) (by simp)).2 (by decide)⟩

/-- C5: on the protected `GET /api/auth/me` route, an absent token cookie or
a token failing verification yields HTTP 401 and the handler is never
invoked (the response is independent of the user store); a verifying token
attaches the decoded `userId` and processing proceeds to the handler. -/
theorem auth_middleware_spec (secret : String) (now : Nat) (users : List User)
    (cookieToken : Option Token) :
    (cookieToken = none →
      meRoute secret now users cookieToken =
        ⟨401, msgBody "No authentication token provided"⟩ ∧
      ∀ users2, meRoute secret now users2 cookieToken =
        meRoute secret now users cookieToken) ∧
    (∀ t, cookieToken = some t → verifyToken secret now t = none →
      meRoute secret now users cookieToken = ⟨401, msgBody "Invalid token"⟩ ∧
      ∀ users2, meRoute secret now users2 cookieToken =
        meRoute secret now users cookieToken) ∧
    (∀ t uid, cookieToken = some t → verifyToken secret now t = some uid →
      meRoute secret now users cookieToken = meHandler users uid) := by
  refine ⟨?_, ?_, ?_⟩
  · rintro rfl
    exact ⟨rfl, fun _ => rfl⟩
  · rintro t rfl hv
    constructor
    · simp [meRoute, authMiddleware, hv]
    · intro users2
      simp [meRoute, authMiddleware, hv]
  · rintro t uid rfl hv
    simp [meRoute, authMiddleware, hv]

/-- Evaluation of `auth_middleware_spec`: the three branches at concrete
requests. -/
theorem auth_middleware_spec_witness :
    meRoute "k" 0 [] none = ⟨401, msgBody "No authentication token provided"⟩ ∧
    meRoute "k" 0 [] (some ⟨none, ("", none)⟩) = ⟨401, msgBody "Invalid token"⟩ ∧
    meRoute "k" 0 [] (some (signToken "k" "u7" 0)) = meHandler [] "u7" :=
  ⟨((auth_middleware_spec "k" 0 [] none).1 rfl).1,
   ((auth_middleware_spec "k" 0 [] (some ⟨none, ("", none)⟩)).2.1
      ⟨none, ("", none)⟩ rfl rfl).1,
   (auth_middleware_spec "k" 0 [] (some (signToken "k" "u7" 0))).2.2
      (signToken "k" "u7" 0) "u7" rfl (by decide)⟩

/-- Unfolding of `register` on a complete request with a fresh email. -/
theorem register_fresh (hash : String → String) (newId : String) (now : Int)
    (users : List User) (r : RegisterReq)
    (ht : (truthyS r.name && truthyS r.email && truthyS r.password) = true)
    (hfind : users.find? (fun u => u.email = r.email.getD "") = none) :
    register hash newId now users r =
      (⟨201, .obj [("message", .str "User registered successfully"),
         ("user", userSummary ⟨newId, r.name.getD "", r.email.getD "",
            hash (r.password.getD ""), now⟩)]⟩,
       users ++ [⟨newId, r.name.getD "", r.email.getD "",
         hash (r.password.getD ""), now⟩]) := by
  simp [register, ht, hfind]

/-- Unfolding of `register` on a complete request whose email is taken. -/
theorem register_taken (hash : String → String) (newId : String) (now : Int)
    (users : List User) (r : RegisterReq) (u : User)
    (ht : (truthyS r.name && truthyS r.email && truthyS r.password) = true)
    (hfind : users.find? (fun v => v.email = r.email.getD "") = some u) :
    register hash newId now users r =
      (⟨400, msgBody "User already exists"⟩, users) := by
  simp [register, ht, hfind]

/-- C6: registering twice with the same (fresh) email returns HTTP 201 and
then HTTP 400 with message `User already exists`, the second request leaving
the store unchanged; and a registration missing any of name, email or
password returns HTTP 400 with the generic message and leaves the store
unchanged. -/
theorem register_flow_spec (hash : String → String) (id1 id2 : String)
    (now1 now2 : Int) (users : List User) (r : RegisterReq)
    (ht : (truthyS r.name && truthyS r.email && truthyS r.password) = true)
    (hfresh : ∀ u ∈ users, u.email ≠ r.email.getD "") :
    (register hash id1 now1 users r).1.status = 201 ∧
    (register hash id2 now2 (register hash id1 now1 users r).2 r).1 =
      ⟨400, msgBody "User already exists"⟩ ∧
    (register hash id2 now2 (register hash id1 now1 users r).2 r).2 =
      (register hash id1 now1 users r).2 ∧
    (∀ r2 : RegisterReq,
      (truthyS r2.name && truthyS r2.email && truthyS r2.password) = false →
      register hash id1 now1 users r2 =
        (⟨400, msgBody "All fields are required"⟩, users)) := by
  have hfind : users.find? (fun u => u.email = r.email.getD "") = none := by
    rw [List.find?_eq_none]
    intro u hu
    simpa using hfresh u hu
  have h1 := register_fresh hash id1 now1 users r ht hfind
  set newU : User :=
    ⟨id1, r.name.getD "", r.email.getD "", hash (r.password.getD ""), now1⟩ with hnewU
  have hfind2 : (users ++ [newU]).find? (fun v => v.email = r.email.getD "") =
      some newU := by
    rw [List.find?_append, hfind]
    simp [hnewU, List.find?]
  have h2 := register_taken hash id2 now2 (users ++ [newU]) r newU ht hfind2
  have hsnd : (register hash id1 now1 users r).2 = users ++ [newU] := by rw [h1]
  refine ⟨?_, ?_, ?_, ?_⟩
  · rw [h1]
  · rw [hsnd, h2]
  · rw [hsnd, h2]
  · intro r2 h
    simp [register, h]

/-- Evaluation of `register_flow_spec`: a concrete double registration and a
request with a missing email field. -/
theorem register_flow_spec_witness :
    (register (fun s => s ++ "#h") "id1" 0 []
        ⟨some "Ann", some "a@b.c", some "pw"⟩).1.status = 201 ∧
    (register (fun s => s ++ "#h") "id2" 1
        (register (fun s => s ++ "#h") "id1" 0 []
          ⟨some "Ann", some "a@b.c", some "pw"⟩).2
        ⟨some "Ann", some "a@b.c", some "pw"⟩).1 =
      ⟨400, msgBody "User already exists"⟩ ∧
    register (fun s => s ++ "#h") "id1" 0 [] ⟨some "Ann", none, some "pw"⟩ =
      (⟨400, msgBody "All fields are required"⟩, []) := by
  have h := register_flow_spec (fun s => s ++ "#h") "id1" "id2" 0 1 []
    ⟨some "Ann", some "a@b.c", some "pw"⟩ (by decide) (by simp)
  exact ⟨h.1, h.2.1, h.2.2.2 ⟨some "Ann", none, some "pw"⟩ (by decide)⟩

/-- C7: for `GET /api/products/:id`, a well-formed id matching no stored
product yields HTTP 404 `Product not found`; a store-layer fault (here, a
syntactically invalid id) yields HTTP 500; the two responses are distinct;
and every request yields a status-coded response (200, 404 or 500), never a
crash. -/
theorem product_lookup_spec (store : List Product) (id id2 : String) :
    (validObjectId id = true → (∀ p ∈ store, p.id ≠ id) →
      getProductById store id = ⟨404, msgBody "Product not found"⟩) ∧
    (validObjectId id = false →
      getProductById store id = ⟨500, errBody "Server error" "CastError"⟩) ∧
    (validObjectId id = true → (∀ p ∈ store, p.id ≠ id) →
      validObjectId id2 = false →
      getProductById store id ≠ getProductById store id2) ∧
    ((getProductById store id).status = 200 ∨
      (getProductById store id).status = 404 ∨
      (getProductById store id).status = 500) := by
  have h404 : validObjectId id = true → (∀ p ∈ store, p.id ≠ id) →
      getProductById store id = ⟨404, msgBody "Product not found"⟩ := by
    intro hv hnone
    have hfind : store.find? (fun p => p.id = id) = none := by
      rw [List.find?_eq_none]
      intro p hp
      simpa using hnone p hp
    simp [getProductById, findProductById, hv, hfind]
  have h500 : ∀ s : String, validObjectId s = false →
      getProductById store s = ⟨500, errBody "Server error" "CastError"⟩ := by
    intro s hs
    simp [getProductById, findProductById, hs]
  refine ⟨h404, h500 id, ?_, ?_⟩
  · intro hv hnone h2
    rw [h404 hv hnone, h500 id2 h2]
    intro h
    exact absurd (congrArg Response.status h) (by decide)
  · unfold getProductById
    split <;> simp

/-- Evaluation of `product_lookup_spec`: an empty store with a well-formed
and a malformed id. -/
theorem product_lookup_spec_witness :
    getProductById [] "0123456789abcdef01234567" =
      ⟨404, msgBody "Product not found"⟩ ∧
    getProductById [] "bad-id" = ⟨500, errBody "Server error" "CastError"⟩ ∧
    getProductById [] "0123456789abcdef01234567" ≠ getProductById [] "bad-id" := by
  have h := product_lookup_spec [] "0123456789abcdef01234567" "bad-id"
  exact ⟨h.1 (by decide) (by simp),
         (product_lookup_spec [] "bad-id" "bad-id").2.1 (by decide),
         h.2.2.1 (by decide) (by simp) (by decide)⟩

/-- Membership is preserved by the insertion step. -/
theorem mem_insertSorted {α : Type} (le : α → α → Bool) (a x : α)
    (l : List α) : x ∈ insertSorted le a l ↔ x = a ∨ x ∈ l := by
  induction l with
  | nil => simp [insertSorted]
  | cons b bs ih =>
    by_cases h : le a b = true
    · simp [insertSorted, h]
    · simp only [insertSorted, if_neg h, List.mem_cons, ih]
      tauto

/-- Sorting preserves membership. -/
theorem mem_sortList {α : Type} (le : α → α → Bool) (x : α) (l : List α) :
    x ∈ sortList le l ↔ x ∈ l := by
  induction l with
  | nil => simp [sortList]
  | cons a as ih =>
    simp [sortList, mem_insertSorted, ih]

/-- Every product on the returned page satisfies the built filter. -/
theorem mem_products_matches (store : List Product) (params : ListParams)
    (p : Product) (hp : p ∈ (listProducts store params).products) :
    productMatches (effectiveQuery params) p = true := by
  simp only [listProducts] at hp
  have h1 : p ∈ sortedFiltered store params :=
    List.mem_of_mem_drop (List.mem_of_mem_take hp)
  rw [sortedFiltered] at h1
  exact (List.mem_filter.1 ((mem_sortList _ _ _).1 h1)).2

/-- C1: a non-empty `search` makes the built query carry exactly one
OR-group of case-insensitive substring predicates over exactly the fields
name, title, brand, category (AND-combined with the remaining filters by
`productMatches`), so every returned item contains the search string
case-insensitively in one of those four fields; an empty or absent `search`
adds no text predicate at all. -/
theorem search_filter_spec (store : List Product) (params : ListParams) :
    (∀ s, params.search = some s → s ≠ "" →
      (effectiveQuery params).orGroup =
        some [⟨"name", s, true⟩, ⟨"title", s, true⟩,
              ⟨"brand", s, true⟩, ⟨"category", s, true⟩] ∧
      ∀ p ∈ (listProducts store params).products,
        containsCI s p.name = true ∨ containsCI s p.title = true ∨
        containsCI s p.brand = true ∨ containsCI s p.category = true) ∧
    ((params.search = none ∨ params.search = some "") →
      (effectiveQuery params).orGroup = none) := by
  constructor
  · intro s hs hne
    have horg : (effectiveQuery params).orGroup =
        some [⟨"name", s, true⟩, ⟨"title", s, true⟩,
              ⟨"brand", s, true⟩, ⟨"category", s, true⟩] := by
      simp [effectiveQuery, buildQuery, hs, hne]
    refine ⟨horg, ?_⟩
    intro p hp
    have hm := mem_products_matches store params p hp
    simp only [productMatches, horg, Bool.and_eq_true] at hm
    have ha := hm.1.1.1
    simpa [List.any, regexHolds, fieldValue] using ha
  · rintro (h | h) <;> simp [effectiveQuery, buildQuery, h]

/-- Evaluation of `search_filter_spec` at `search=fruit` over a one-product
store, and at a request without `search`. -/
theorem search_filter_spec_witness :
    (effectiveQuery searchParams).orGroup =
      some [⟨"name", "fruit", true⟩, ⟨"title", "fruit", true⟩,
            ⟨"brand", "fruit", true⟩, ⟨"category", "fruit", true⟩] ∧
    (containsCI "fruit" sampleProduct.name = true ∨
     containsCI "fruit" sampleProduct.title = true ∨
     containsCI "fruit" sampleProduct.brand = true ∨
     containsCI "fruit" sampleProduct.category = true) ∧
    (effectiveQuery emptyParams).orGroup = none := by
  have h := (search_filter_spec [sampleProduct] searchParams).1 "fruit" rfl (by decide)
  exact ⟨h.1, h.2 sampleProduct (by decide),
         (search_filter_spec [sampleProduct] emptyParams).2 (Or.inl rfl)⟩

/-- C2: `pagination.total` equals the number of stored products satisfying
the filter predicates alone, unchanged under any `page`/`limit` values, and
`pagination.pages` is the ceiling of `total / limit`. -/
theorem pagination_total_spec (store : List Product) (params : ListParams)
    (_hl : 0 < params.limit.getD 8) :
    (listProducts store params).pagination.total =
      (store.filter (productMatches (effectiveQuery params))).length ∧
    (∀ p l, (listProducts store
        { params with page := p, limit := l }).pagination.total =
      (listProducts store params).pagination.total) ∧
    (listProducts store params).pagination.pages =
      (listProducts store params).pagination.total ⌈/⌉ params.limit.getD 8 := by
  refine ⟨rfl, fun p l => rfl, ?_⟩
  rw [Nat.ceilDiv_eq_add_pred_div]
  rfl

/-- Evaluation of `pagination_total_spec` at a parameterless request over a
one-product store. -/
theorem pagination_total_spec_witness :
    0 < (emptyParams.limit).getD 8 ∧
    (listProducts [sampleProduct] emptyParams).pagination.pages =
      (listProducts [sampleProduct] emptyParams).pagination.total ⌈/⌉ 8 :=
  ⟨by decide, (pagination_total_spec [sampleProduct] emptyParams (by decide)).2.2⟩

/-- C3: `page` defaults to 1 and `limit` to 8 when absent; the returned
items are exactly the slice of the filtered, sorted sequence starting at
offset `(page-1)*limit`, and never more than `limit` items. -/
theorem pagination_slice_spec (store : List Product) (params : ListParams)
    (_hl : 0 < params.limit.getD 8) :
    (params.page = none → (listProducts store params).pagination.page = 1) ∧
    (params.limit = none → (listProducts store params).pagination.limit = 8) ∧
    (listProducts store params).products =
      ((sortedFiltered store params).drop
        ((params.page.getD 1 - 1) * params.limit.getD 8)).take
        (params.limit.getD 8) ∧
    (listProducts store params).products.length ≤ params.limit.getD 8 := by
  refine ⟨?_, ?_, rfl, ?_⟩
  · intro h
    simp [listProducts, h]
  · intro h
    simp [listProducts, h]
  · exact List.length_take_le _ _

/-- Evaluation of `pagination_slice_spec`: the defaults at a parameterless
request. -/
theorem pagination_slice_spec_witness :
    (listProducts [sampleProduct] emptyParams).pagination.page = 1 ∧
    (listProducts [sampleProduct] emptyParams).pagination.limit = 8 :=
  ⟨(pagination_slice_spec [sampleProduct] emptyParams (by decide)).1 rfl,
   (pagination_slice_spec [sampleProduct] emptyParams (by decide)).2.1 rfl⟩

end EMart
